import Mathlib

/-!
# Verification of the `pong` game core (`src/main.rs`)

A shallow embedding of the simulation core of the classic-pong game: the
`Side`, `Racket`, `Ball`, `PongState`, `Input` and `Pong` types together with
the per-tick update logic (`Pong::update`, `Pong::update_score`,
`Pong::update_ball_collisions`, `Pong::update_racket_collisions`,
`Pong::reset`, `Ball::new`, `Ball::fly`, `Racket::slide`).

Modelling decisions:
* `f32`/`f64` values (positions, directions, speeds, timestamps) are embedded
  as `ℚ`; `i32` scores as `ℤ`.
* The engine environment is threaded explicitly: `get_frame_time()` becomes a
  parameter `ft`, `get_time()` becomes a parameter `now`, and the
  clock-low-bit randomness used by `Ball::new`'s `rnddir` closure becomes
  Boolean parameters (`rnddir` maps a clock bit to `±1`, exactly like
  `(bit * 2 - 1) as f32` in the source).
* `read_inputs` polls the windowing backend, so the per-tick intent list is a
  parameter `inputs : List Input` of `Pong.update`; `Vec::contains` becomes
  list membership.
* `macroquad::math::Rect` (an external dependency of the source) is embedded
  with its published implementation: `intersect` returns `some` exactly when
  `right ≥ left` and `bottom ≥ top` (degenerate touching counts), and
  `center` is `(x + w/2, y + h/2)`.
* Sounds, drawing and the shader pipeline are outside the game core and are
  not modelled.
-/

/-- `WINDOW_WIDTH` constant from the source (court width, 800). -/
def WINDOW_WIDTH : ℚ := 800

/-- `WINDOW_HEIGHT` constant from the source (court height, 600). -/
def WINDOW_HEIGHT : ℚ := 600

/-- `RACKET_SIZE` constant from the source: (width, height) = (20, 100). -/
def RACKET_SIZE : ℚ × ℚ := (20, 100)

/-- `RACKET_MARGIN` constant from the source (40). -/
def RACKET_MARGIN : ℚ := 40

/-- `RACKET_SPEED` constant from the source (500). -/
def RACKET_SPEED : ℚ := 500

/-- `BALL_SIZE` constant from the source (20). -/
def BALL_SIZE : ℚ := 20

/-- `BALL_INIT_SPEED` constant from the source (150). -/
def BALL_INIT_SPEED : ℚ := 150

/-- `BALL_ACCEL` constant from the source (10). -/
def BALL_ACCEL : ℚ := 10

/-- `WIN_SCORE` constant from the source (5, an `i32`). -/
def WIN_SCORE : ℤ := 5

/-- `WIN_SCREEN_SECS` constant from the source (1, an `f64`). -/
def WIN_SCREEN_SECS : ℚ := 1

/-- The `Side` enum from the source. -/
inductive Side where
  | Left
  | Right
deriving DecidableEq, Repr

/-- `Side::toggle`: the opposite side. -/
def Side.toggle : Side → Side
  | Side.Left => Side.Right
  | Side.Right => Side.Left

/-- The `Racket` struct: a side and a top-left position `(x, y)`. -/
structure Racket where
  side : Side
  pos : ℚ × ℚ
deriving DecidableEq, Repr

/-- `Racket::new`: left racket at `RACKET_MARGIN`, right racket mirrored,
both vertically centered. -/
def Racket.new (side : Side) : Racket :=
  let pos_x := match side with
    | Side.Left => RACKET_MARGIN
    | Side.Right => WINDOW_WIDTH - RACKET_MARGIN - RACKET_SIZE.1
  let pos_y := WINDOW_HEIGHT * (1/2) - RACKET_SIZE.2 * (1/2)
  { side := side, pos := (pos_x, pos_y) }

/-- `Racket::slide`: move the vertical coordinate by `speed * get_frame_time()`;
the frame time is the explicit parameter `ft`. -/
def Racket.slide (r : Racket) (speed ft : ℚ) : Racket :=
  { r with pos := (r.pos.1, r.pos.2 + speed * ft) }

/-- The `Ball` struct: position, direction and scalar speed. -/
structure Ball where
  pos : ℚ × ℚ
  dir : ℚ × ℚ
  speed : ℚ
deriving DecidableEq, Repr

/-- The source's `rnddir` closure seeded from the clock:
`((((get_time() * 1e6) as i32) & 1) * 2 - 1) as f32`; the low clock bit is the
explicit parameter, and the result is `1` or `-1`. -/
def rnddir (bit : Bool) : ℚ :=
  (if bit then (1 : ℚ) else 0) * 2 - 1

/-- `Ball::new`: center the ball; the horizontal direction is `-1` for
`Some(Left)`, `1` for `Some(Right)`, and random for `None`; the vertical
direction is random.  `r1` feeds the `rnddir` call for `dir_x` (used only in
the `None` case) and `r2` the one for `dir_y`. -/
def Ball.new (side : Option Side) (r1 r2 : Bool) : Ball :=
  let x := WINDOW_WIDTH * (1/2) - BALL_SIZE * (1/2)
  let y := WINDOW_HEIGHT * (1/2) - BALL_SIZE * (1/2)
  let dir_x := match side with
    | some Side.Left => (-1 : ℚ)
    | some Side.Right => (1 : ℚ)
    | none => rnddir r1
  { pos := (x, y), dir := (dir_x, rnddir r2), speed := BALL_INIT_SPEED }

/-- `Ball::fly`: integrate position by `dir * speed * ft` and accelerate
`speed` by `ft * BALL_ACCEL`. -/
def Ball.fly (b : Ball) (ft : ℚ) : Ball :=
  let delta := b.speed * ft
  { pos := (b.pos.1 + b.dir.1 * delta, b.pos.2 + b.dir.2 * delta),
    dir := b.dir,
    speed := b.speed + ft * BALL_ACCEL }

/-- The `PongState` enum from the source; the `Winner` payload carries the
`f64` timestamp as a `ℚ`. -/
inductive PongState where
  | NewRound (side : Side)
  | Playing
  | WallBounce
  | RacketBounce
  | Point (side : Side)
  | Winner (side : Side) (at_ : ℚ)
  | Exit
deriving DecidableEq, Repr

/-- The `Input` enum from the source. -/
inductive Input where
  | Up (side : Side)
  | Down (side : Side)
  | Quit
  | Unknown
deriving DecidableEq, Repr

/-- The game-core fields of the `Pong` struct (the three `Sound` handles are
external collaborators and are not modelled). -/
structure Pong where
  rackets : Racket × Racket
  scores : ℤ × ℤ
  ball : Ball
  state : PongState
deriving DecidableEq, Repr

/-- `macroquad::math::Rect` (external dependency): x, y, width, height. -/
structure Rect where
  x : ℚ
  y : ℚ
  w : ℚ
  h : ℚ
deriving DecidableEq, Repr

/-- `Rect::right`. -/
def Rect.right (r : Rect) : ℚ := r.x + r.w

/-- `Rect::bottom`. -/
def Rect.bottom (r : Rect) : ℚ := r.y + r.h

/-- `Rect::center`. -/
def Rect.center (r : Rect) : ℚ × ℚ := (r.x + r.w * (1/2), r.y + r.h * (1/2))

/-- `Rect::intersect`: the overlap rectangle, `none` when `right < left` or
`bottom < top` (so degenerate touching yields `some` with zero extent). -/
def Rect.intersect (a b : Rect) : Option Rect :=
  let left := max a.x b.x
  let top := max a.y b.y
  let right := min a.right b.right
  let bottom := min a.bottom b.bottom
  if right < left ∨ bottom < top then none
  else some ⟨left, top, right - left, bottom - top⟩

/-- The `DX` constant local to `Pong::update_ball_collisions` (0.1). -/
def DX : ℚ := 1/10

/-- The rebound part of one racket-loop iteration in
`Pong::update_ball_collisions`: on intersection with the contact slab, force
the horizontal direction away from the racket and recompute the vertical
direction from the contact offset relative to the slab center. -/
def applyRacketHit (ballRect racket_rect : Rect) (racket : Racket) (p : Pong) : Pong :=
  match racket_rect.intersect ballRect with
  | none => p
  | some rect =>
      let dir_x := match racket.side with
        | Side.Left => |p.ball.dir.1|
        | Side.Right => -|p.ball.dir.1|
      let dir_y := (rect.center.2 - racket_rect.center.2) / (racket_rect.h * (1/2))
      { p with
        ball := { p.ball with dir := (dir_x, dir_y) },
        state := PongState.RacketBounce }

/-- One iteration of the racket loop in `Pong::update_ball_collisions`:
skip the racket (`continue`) when the ball moves away from it, otherwise
build the thin contact slab at its inner edge and apply the rebound on
intersection.  `ballRect` is the ball rectangle computed before the loop. -/
def checkRacketHit (ballRect : Rect) (racket : Racket) (p : Pong) : Pong :=
  match racket.side with
  | Side.Left =>
      if p.ball.dir.1 > 0 then p
      else applyRacketHit ballRect
        (Rect.mk (racket.pos.1 + RACKET_SIZE.1 - DX) racket.pos.2 (DX * 2) RACKET_SIZE.2) racket p
  | Side.Right =>
      if p.ball.dir.1 < 0 then p
      else applyRacketHit ballRect
        (Rect.mk (racket.pos.1 - DX) racket.pos.2 (DX * 2) RACKET_SIZE.2) racket p

/-- `Pong::update_ball_collisions`: horizontal out-of-bounds scores a point,
then the top and bottom walls clamp and rebound, then the two rackets are
tested in order (left first, with the ball direction updated in between, as
in the source's loop over `[&self.rackets.0, &self.rackets.1]`). -/
def Pong.update_ball_collisions (p : Pong) : Pong :=
  if p.ball.pos.1 < 0 then
    { p with state := PongState.Point Side.Right }
  else if p.ball.pos.1 + BALL_SIZE > WINDOW_WIDTH then
    { p with state := PongState.Point Side.Left }
  else if p.ball.pos.2 < 0 then
    { p with
      ball := { p.ball with pos := (p.ball.pos.1, 0), dir := (p.ball.dir.1, |p.ball.dir.2|) },
      state := PongState.WallBounce }
  else if p.ball.pos.2 + BALL_SIZE > WINDOW_HEIGHT then
    { p with
      ball := { p.ball with
                pos := (p.ball.pos.1, WINDOW_HEIGHT - BALL_SIZE),
                dir := (p.ball.dir.1, -|p.ball.dir.2|) },
      state := PongState.WallBounce }
  else
    let ball_rect := Rect.mk p.ball.pos.1 p.ball.pos.2 BALL_SIZE BALL_SIZE
    checkRacketHit ball_rect p.rackets.2 (checkRacketHit ball_rect p.rackets.1 p)

/-- `f32::clamp` from the Rust standard library. -/
def clampQ (x lo hi : ℚ) : ℚ :=
  if x < lo then lo else if x > hi then hi else x

/-- `Pong::update_racket_collisions`: clamp both rackets' vertical positions
into `[0, WINDOW_HEIGHT - RACKET_SIZE.1]`. -/
def Pong.update_racket_collisions (p : Pong) : Pong :=
  { p with
    rackets :=
      ({ p.rackets.1 with
         pos := (p.rackets.1.pos.1, clampQ p.rackets.1.pos.2 0 (WINDOW_HEIGHT - RACKET_SIZE.2)) },
       { p.rackets.2 with
         pos := (p.rackets.2.pos.1, clampQ p.rackets.2.pos.2 0 (WINDOW_HEIGHT - RACKET_SIZE.2)) }) }

/-- `Pong::update_score`: increment the scoring side's score; move to
`Winner(side, get_time())` when the new score reaches `WIN_SCORE`, otherwise
to `NewRound` of the opposite side.  `now` is `get_time()`. -/
def Pong.update_score (p : Pong) (point_side : Side) (now : ℚ) : Pong :=
  match point_side with
  | Side.Left =>
      let score := p.scores.1 + 1
      { p with
        scores := (score, p.scores.2),
        state := if score ≥ WIN_SCORE then PongState.Winner point_side now
                 else PongState.NewRound point_side.toggle }
  | Side.Right =>
      let score := p.scores.2 + 1
      { p with
        scores := (p.scores.1, score),
        state := if score ≥ WIN_SCORE then PongState.Winner point_side now
                 else PongState.NewRound point_side.toggle }

/-- `Pong::reset`: fresh rackets, a fresh ball with random direction, zero
scores, state `Playing`. -/
def Pong.reset (p : Pong) (r1 r2 : Bool) : Pong :=
  let _ := p
  { rackets := (Racket.new Side.Left, Racket.new Side.Right),
    ball := Ball.new none r1 r2,
    scores := (0, 0),
    state := PongState.Playing }

/-- The four `if inputs.contains(...)` statements at the head of the
`Playing` arm of `Pong::update`: each move intent is tested once with
`Vec::contains` and, when present, slides its racket by `±RACKET_SPEED`. -/
def Pong.apply_move_inputs (p : Pong) (ft : ℚ) (inputs : List Input) : Pong :=
  let q1 := if Input.Up Side.Left ∈ inputs then
      { p with rackets := (p.rackets.1.slide (-RACKET_SPEED) ft, p.rackets.2) } else p
  let q2 := if Input.Down Side.Left ∈ inputs then
      { q1 with rackets := (q1.rackets.1.slide RACKET_SPEED ft, q1.rackets.2) } else q1
  let q3 := if Input.Up Side.Right ∈ inputs then
      { q2 with rackets := (q2.rackets.1, q2.rackets.2.slide (-RACKET_SPEED) ft) } else q2
  if Input.Down Side.Right ∈ inputs then
      { q3 with rackets := (q3.rackets.1, q3.rackets.2.slide RACKET_SPEED ft) } else q3

/-- `Pong::update`, one tick: a quit intent forces `Exit` before the state
dispatch; `NewRound` spawns a ball toward its side; `Playing` applies the
move intents, clamps the rackets, integrates the ball and resolves
collisions; the bounce states fall back to `Playing`; `Point` updates the
score; `Winner` resets after the hold time on any input; `Exit` is inert.
`ft` is `get_frame_time()`, `now` is `get_time()`, `r1 r2` feed any
`Ball::new` randomness this tick, and `inputs` is the intent list
`read_inputs` would return. -/
def Pong.update (p : Pong) (ft now : ℚ) (r1 r2 : Bool) (inputs : List Input) : Pong :=
  let p1 := if Input.Quit ∈ inputs then { p with state := PongState.Exit } else p
  match p1.state with
  | PongState.NewRound side =>
      { p1 with ball := Ball.new (some side) r1 r2, state := PongState.Playing }
  | PongState.Playing =>
      let q5 := (p1.apply_move_inputs ft inputs).update_racket_collisions
      let q6 := { q5 with ball := q5.ball.fly ft }
      q6.update_ball_collisions
  | PongState.WallBounce => { p1 with state := PongState.Playing }
  | PongState.RacketBounce => { p1 with state := PongState.Playing }
  | PongState.Point side => p1.update_score side now
  | PongState.Winner _ t =>
      if now - t > WIN_SCREEN_SECS ∧ inputs ≠ [] then p1.reset r1 r2 else p1
  | PongState.Exit => p1

/-- The score cell the `match point_side` in `Pong::update_score` selects. -/
def sideScore (scores : ℤ × ℤ) : Side → ℤ
  | Side.Left => scores.1
  | Side.Right => scores.2

/-- A representative mid-rally configuration: rackets as constructed by
`Racket::new`, ball in the middle of the court moving down-right. -/
def samplePong : Pong :=
  { rackets := (Racket.new Side.Left, Racket.new Side.Right),
    scores := (0, 0),
    ball := { pos := (390, 290), dir := (1, 1), speed := 150 },
    state := PongState.Playing }

/-- `samplePong` about to serve a new round toward the left side. -/
def newRoundLeftPong : Pong :=
  { samplePong with state := PongState.NewRound Side.Left }

/-- `samplePong` about to serve a new round toward the right side. -/
def newRoundRightPong : Pong :=
  { samplePong with state := PongState.NewRound Side.Right }

/-- `samplePong` with a freshly conceded point for the left player. -/
def pointLeftPong : Pong :=
  { samplePong with state := PongState.Point Side.Left }

/-- `samplePong` after the player quit. -/
def exitPong : Pong :=
  { samplePong with state := PongState.Exit }

/-- `samplePong` with the ball in the top-left corner region moving up-left,
one tick away from leaving the court through the corner. -/
def cornerPong : Pong :=
  { samplePong with ball := { pos := (5, 5), dir := (-1, -1), speed := 150 } }

/-- `samplePong` with the ball flush against the left racket's contact slab. -/
def slabPong : Pong :=
  { samplePong with ball := { pos := (50, 290), dir := (-1, 1), speed := 150 } }

lemma clampQ_eq_self {x lo hi : ℚ} (h1 : lo ≤ x) (h2 : x ≤ hi) : clampQ x lo hi = x := by
  unfold clampQ
  rw [if_neg (not_lt.mpr h1), if_neg (not_lt.mpr h2)]

lemma applyRacketHit_preserve (br rr : Rect) (r : Racket) (p : Pong) :
    (applyRacketHit br rr r p).ball.pos = p.ball.pos ∧
    (applyRacketHit br rr r p).ball.speed = p.ball.speed ∧
    (applyRacketHit br rr r p).rackets = p.rackets ∧
    (applyRacketHit br rr r p).scores = p.scores := by
  unfold applyRacketHit
  rcases h : rr.intersect br with _ | rect <;> simp

lemma checkRacketHit_preserve (br : Rect) (r : Racket) (p : Pong) :
    (checkRacketHit br r p).ball.pos = p.ball.pos ∧
    (checkRacketHit br r p).ball.speed = p.ball.speed ∧
    (checkRacketHit br r p).rackets = p.rackets ∧
    (checkRacketHit br r p).scores = p.scores := by
  unfold checkRacketHit
  cases hs : r.side <;> dsimp only <;> split
  · exact ⟨rfl, rfl, rfl, rfl⟩
  · exact applyRacketHit_preserve _ _ _ _
  · exact ⟨rfl, rfl, rfl, rfl⟩
  · exact applyRacketHit_preserve _ _ _ _

lemma update_ball_collisions_rackets (p : Pong) :
    (p.update_ball_collisions).rackets = p.rackets := by
  unfold Pong.update_ball_collisions
  split_ifs <;>
    simp [(checkRacketHit_preserve _ _ _).2.2.1,
      (checkRacketHit_preserve _ _ (checkRacketHit _ _ p)).2.2.1]

lemma update_ball_collisions_scores (p : Pong) :
    (p.update_ball_collisions).scores = p.scores := by
  unfold Pong.update_ball_collisions
  split_ifs <;>
    simp [(checkRacketHit_preserve _ _ _).2.2.2,
      (checkRacketHit_preserve _ _ (checkRacketHit _ _ p)).2.2.2]

lemma update_ball_collisions_pos_x (p : Pong) :
    (p.update_ball_collisions).ball.pos.1 = p.ball.pos.1 := by
  unfold Pong.update_ball_collisions
  split_ifs <;>
    simp [(checkRacketHit_preserve _ _ _).1,
      (checkRacketHit_preserve _ _ (checkRacketHit _ _ p)).1]

lemma apply_move_inputs_scores (p : Pong) (ft : ℚ) (inputs : List Input) :
    (p.apply_move_inputs ft inputs).scores = p.scores := by
  unfold Pong.apply_move_inputs
  split_ifs <;> rfl

lemma apply_move_inputs_ball (p : Pong) (ft : ℚ) (inputs : List Input) :
    (p.apply_move_inputs ft inputs).ball = p.ball := by
  unfold Pong.apply_move_inputs
  split_ifs <;> rfl

lemma apply_move_inputs_state (p : Pong) (ft : ℚ) (inputs : List Input) :
    (p.apply_move_inputs ft inputs).state = p.state := by
  unfold Pong.apply_move_inputs
  split_ifs <;> rfl

/-- C5: a quit intent in the tick's input set forces the `Exit` state,
whatever the current state and the other intents; and `Exit` is terminal. -/
theorem c5_quit_preempts_to_exit (p : Pong) (ft now : ℚ) (r1 r2 : Bool)
    (inputs : List Input) :
    (Input.Quit ∈ inputs → (p.update ft now r1 r2 inputs).state = PongState.Exit) ∧
    (p.state = PongState.Exit → (p.update ft now r1 r2 inputs).state = PongState.Exit) := by
  constructor
  · intro h
    unfold Pong.update
    simp [h]
  · intro h
    unfold Pong.update
    by_cases hq : Input.Quit ∈ inputs <;> simp [hq, h]

/-- Witness for C5 at concrete inputs: a quit intent mixed with a move intent
during play exits, and a tick in `Exit` stays in `Exit`. -/
theorem c5_witness :
    (samplePong.update 1 0 false false [Input.Up Side.Left, Input.Quit]).state
        = PongState.Exit ∧
    (exitPong.update 1 0 false false [Input.Up Side.Left]).state = PongState.Exit :=
  ⟨(c5_quit_preempts_to_exit samplePong 1 0 false false
      [Input.Up Side.Left, Input.Quit]).1 (by decide),
   (c5_quit_preempts_to_exit exitPong 1 0 false false [Input.Up Side.Left]).2 rfl⟩

/-- C1 counterexample: from `NewRound(Left)` one quiet tick reaches `Playing`
but the spawned ball's horizontal direction is `-1`, not positive as the
claim states (the ball serves *toward* the named side, not away from it). -/
theorem c1_counterexample :
    (newRoundLeftPong.update 1 0 false false []).state = PongState.Playing ∧
    (newRoundLeftPong.update 1 0 false false []).ball.dir.1 = -1 ∧
    ¬ 0 < (newRoundLeftPong.update 1 0 false false []).ball.dir.1 := by
  refine ⟨?_, ?_, ?_⟩ <;>
    simp [newRoundLeftPong, samplePong, Pong.update, Ball.new, rnddir]

/-- C1 amended: a quiet tick from `NewRound(side)` reaches `Playing` and
spawns the ball with horizontal direction `-1` for `side = Left` and `1` for
`side = Right` — i.e. moving toward the named (serving) side. -/
theorem c1_new_round_spawn_direction (p : Pong) (ft now : ℚ) (r1 r2 : Bool)
    (inputs : List Input) (side : Side)
    (hq : Input.Quit ∉ inputs) (hs : p.state = PongState.NewRound side) :
    (p.update ft now r1 r2 inputs).state = PongState.Playing ∧
    (p.update ft now r1 r2 inputs).ball.dir.1 =
      (match side with | Side.Left => (-1 : ℚ) | Side.Right => 1) := by
  unfold Pong.update
  simp only [hq, if_neg, ite_false, hs]
  cases side <;> simp [Ball.new]

/-- Witness for the amended C1: from `NewRound(Right)` a quiet tick reaches
`Playing` with the ball moving right. -/
theorem c1_witness :
    (newRoundRightPong.update 1 0 false false []).state = PongState.Playing ∧
    (newRoundRightPong.update 1 0 false false []).ball.dir.1 = 1 :=
  c1_new_round_spawn_direction newRoundRightPong 1 0 false false [] Side.Right
    (by decide) rfl

/-- C2: a quiet tick from `Point(side)` increments exactly that side's score
and moves to `NewRound(opposite)` below `WIN_SCORE`, otherwise to
`Winner(side, now)`. -/
theorem c2_point_updates_score (p : Pong) (ft now : ℚ) (r1 r2 : Bool)
    (inputs : List Input) (side : Side)
    (hq : Input.Quit ∉ inputs) (hs : p.state = PongState.Point side) :
    sideScore (p.update ft now r1 r2 inputs).scores side = sideScore p.scores side + 1 ∧
    sideScore (p.update ft now r1 r2 inputs).scores side.toggle
      = sideScore p.scores side.toggle ∧
    (p.update ft now r1 r2 inputs).state =
      (if WIN_SCORE ≤ sideScore p.scores side + 1 then PongState.Winner side now
       else PongState.NewRound side.toggle) := by
  unfold Pong.update
  simp only [hq, if_neg, ite_false, hs]
  cases side <;>
    simp [Pong.update_score, sideScore, Side.toggle, ge_iff_le]

/-- Witness for C2: from `Point(Left)` at scores (0,0) a quiet tick yields
scores (1,0) and state `NewRound(Right)`. -/
theorem c2_witness :
    sideScore (pointLeftPong.update 1 7 false false []).scores Side.Left
        = sideScore pointLeftPong.scores Side.Left + 1 ∧
    sideScore (pointLeftPong.update 1 7 false false []).scores Side.Left.toggle
        = sideScore pointLeftPong.scores Side.Left.toggle ∧
    (pointLeftPong.update 1 7 false false []).state =
      (if WIN_SCORE ≤ sideScore pointLeftPong.scores Side.Left + 1
       then PongState.Winner Side.Left 7
       else PongState.NewRound Side.Left.toggle) :=
  c2_point_updates_score pointLeftPong 1 7 false false [] Side.Left (by decide) rfl

/-- C4: in one collision-resolution pass, horizontal out-of-bounds is decided
first and alone (the whole match state is unchanged apart from entering
`Point`, so the ball is neither wall- nor paddle-rebounded), and a top or
bottom wall bounce is decided before any paddle contact (the horizontal
direction is left untouched on a wall-bounce tick). -/
theorem c4_collision_resolution_order (p : Pong) :
    (p.ball.pos.1 < 0 →
      p.update_ball_collisions = { p with state := PongState.Point Side.Right }) ∧
    (¬ p.ball.pos.1 < 0 → p.ball.pos.1 + BALL_SIZE > WINDOW_WIDTH →
      p.update_ball_collisions = { p with state := PongState.Point Side.Left }) ∧
    (¬ p.ball.pos.1 < 0 → ¬ p.ball.pos.1 + BALL_SIZE > WINDOW_WIDTH →
      p.ball.pos.2 < 0 →
      (p.update_ball_collisions).state = PongState.WallBounce ∧
      (p.update_ball_collisions).ball.dir.1 = p.ball.dir.1) ∧
    (¬ p.ball.pos.1 < 0 → ¬ p.ball.pos.1 + BALL_SIZE > WINDOW_WIDTH →
      ¬ p.ball.pos.2 < 0 → p.ball.pos.2 + BALL_SIZE > WINDOW_HEIGHT →
      (p.update_ball_collisions).state = PongState.WallBounce ∧
      (p.update_ball_collisions).ball.dir.1 = p.ball.dir.1) := by
  refine ⟨?_, ?_, ?_, ?_⟩ <;> intro h1 <;> unfold Pong.update_ball_collisions
  · rw [if_pos h1]
  · intro h2
    rw [if_neg h1, if_pos h2]
  · intro h2 h3
    rw [if_neg h1, if_neg h2, if_pos h3]
    exact ⟨rfl, rfl⟩
  · intro h2 h3 h4
    rw [if_neg h1, if_neg h2, if_neg h3, if_pos h4]
    exact ⟨rfl, rfl⟩

/-- Witness for C4: a ball past the left edge scores for the right side with
everything else untouched, and a ball past the top wall (in horizontal
bounds) rebounds without its horizontal direction changing. -/
theorem c4_witness :
    ({ samplePong with
       ball := { pos := (-3, 100), dir := (-1, 1), speed := 150 } } : Pong).update_ball_collisions
      = { ({ samplePong with
             ball := { pos := (-3, 100), dir := (-1, 1), speed := 150 } } : Pong) with
          state := PongState.Point Side.Right } ∧
    (({ samplePong with
        ball := { pos := (100, -3), dir := (1, -1), speed := 150 } } : Pong).update_ball_collisions).state
      = PongState.WallBounce ∧
    (({ samplePong with
        ball := { pos := (100, -3), dir := (1, -1), speed := 150 } } : Pong).update_ball_collisions).ball.dir.1
      = ({ samplePong with
           ball := { pos := (100, -3), dir := (1, -1), speed := 150 } } : Pong).ball.dir.1 :=
  ⟨(c4_collision_resolution_order _).1 (by norm_num),
   (c4_collision_resolution_order
      { samplePong with ball := { pos := (100, -3), dir := (1, -1), speed := 150 } }).2.2.1
     (by norm_num) (by norm_num [BALL_SIZE, WINDOW_WIDTH]) (by norm_num)⟩

/-- C6: over one arbitrary tick, either both scores are non-decreasing, or
the tick performed the full match reset (zeroed scores together with
re-centered rackets, a respawned ball and state `Playing`). -/
theorem c6_scores_monotone_or_reset (p : Pong) (ft now : ℚ) (r1 r2 : Bool)
    (inputs : List Input) :
    (p.scores.1 ≤ (p.update ft now r1 r2 inputs).scores.1 ∧
     p.scores.2 ≤ (p.update ft now r1 r2 inputs).scores.2) ∨
    p.update ft now r1 r2 inputs = p.reset r1 r2 := by
  unfold Pong.update
  by_cases hq : Input.Quit ∈ inputs
  · simp [hq]
  · simp only [hq, if_neg, ite_false]
    cases hs : p.state with
    | NewRound side => left; simp
    | Playing =>
        left
        constructor <;>
          simp [update_ball_collisions_scores, Pong.update_racket_collisions,
            apply_move_inputs_scores]
    | WallBounce => left; simp
    | RacketBounce => left; simp
    | Point side =>
        left
        cases side <;> simp [Pong.update_score]
    | Winner side t =>
        by_cases hw : now - t > WIN_SCREEN_SECS ∧ inputs ≠ []
        · right; simp [hw]
        · left; simp [hw]
    | Exit => left; simp

lemma update_ball_collisions_vbounds (q : Pong)
    (h : ∀ s, (q.update_ball_collisions).state ≠ PongState.Point s) :
    0 ≤ (q.update_ball_collisions).ball.pos.2 ∧
    (q.update_ball_collisions).ball.pos.2 + BALL_SIZE ≤ WINDOW_HEIGHT := by
  unfold Pong.update_ball_collisions at h ⊢
  split_ifs at h ⊢ with h1 h2 h3 h4
  · exact absurd rfl (h Side.Right)
  · exact absurd rfl (h Side.Left)
  · norm_num [BALL_SIZE, WINDOW_HEIGHT]
  · norm_num [BALL_SIZE, WINDOW_HEIGHT]
  · rw [(checkRacketHit_preserve _ _ _).1, (checkRacketHit_preserve _ _ _).1]
    exact ⟨not_lt.mp h3, not_lt.mp h4⟩

lemma update_ball_collisions_pos_y (q : Pong)
    (hb1 : 0 ≤ q.ball.pos.2) (hb2 : q.ball.pos.2 + BALL_SIZE ≤ WINDOW_HEIGHT) :
    (q.update_ball_collisions).ball.pos.2 = q.ball.pos.2 := by
  unfold Pong.update_ball_collisions
  split_ifs with h1 h2 h3 h4
  · rfl
  · rfl
  · exact absurd h3 (not_lt.mpr hb1)
  · exact absurd h4 (not_lt.mpr hb2)
  · rw [(checkRacketHit_preserve _ _ _).1, (checkRacketHit_preserve _ _ _).1]

lemma update_playing_eq (p : Pong) (ft now : ℚ) (r1 r2 : Bool) (inputs : List Input)
    (hq : Input.Quit ∉ inputs) (hs : p.state = PongState.Playing) :
    p.update ft now r1 r2 inputs =
      Pong.update_ball_collisions
        { (p.apply_move_inputs ft inputs).update_racket_collisions with
          ball := ((p.apply_move_inputs ft inputs).update_racket_collisions).ball.fly ft } := by
  unfold Pong.update
  simp [hq, hs]

lemma checkRacketHit_skip_left (br : Rect) (r : Racket) (p : Pong)
    (hside : r.side = Side.Left) (h : p.ball.dir.1 > 0) :
    checkRacketHit br r p = p := by
  unfold checkRacketHit
  rw [hside]
  simp [h]

lemma checkRacketHit_right_miss (br : Rect) (r : Racket) (p : Pong)
    (hside : r.side = Side.Right)
    (h : Rect.intersect (Rect.mk (r.pos.1 - DX) r.pos.2 (DX * 2) RACKET_SIZE.2) br = none) :
    checkRacketHit br r p = p := by
  unfold checkRacketHit
  rw [hside]
  dsimp only
  by_cases hd : p.ball.dir.1 < 0
  · rw [if_pos hd]
  · rw [if_neg hd]
    unfold applyRacketHit
    rw [h]

lemma cornerPong_tick : cornerPong.update (1/10) 0 false false [] =
    { cornerPong with
      ball := { pos := (-10, -10), dir := (-1, -1), speed := 151 },
      state := PongState.Point Side.Right } := by
  rw [update_playing_eq _ _ _ _ _ _ (by decide) rfl]
  have h1 : cornerPong.apply_move_inputs (1/10) [] = cornerPong := by
    unfold Pong.apply_move_inputs
    simp
  rw [h1]
  have h2 : cornerPong.update_racket_collisions = cornerPong := by
    unfold Pong.update_racket_collisions
    norm_num [cornerPong, samplePong, Racket.new, clampQ, WINDOW_HEIGHT, WINDOW_WIDTH,
      RACKET_SIZE, RACKET_MARGIN]
  rw [h2]
  have h3 : cornerPong.ball.fly (1/10) = { pos := (-10, -10), dir := (-1, -1), speed := 151 } := by
    norm_num [Ball.fly, cornerPong, samplePong, BALL_ACCEL]
  rw [h3]
  unfold Pong.update_ball_collisions
  norm_num [cornerPong, samplePong]

lemma samplePong_tick : samplePong.update (1/10) 0 false false [] =
    { samplePong with ball := { pos := (405, 305), dir := (1, 1), speed := 151 } } := by
  rw [update_playing_eq _ _ _ _ _ _ (by decide) rfl]
  have h1 : samplePong.apply_move_inputs (1/10) [] = samplePong := by
    unfold Pong.apply_move_inputs
    simp
  rw [h1]
  have h2 : samplePong.update_racket_collisions = samplePong := by
    unfold Pong.update_racket_collisions
    norm_num [samplePong, Racket.new, clampQ, WINDOW_HEIGHT, WINDOW_WIDTH,
      RACKET_SIZE, RACKET_MARGIN]
  rw [h2]
  have h3 : samplePong.ball.fly (1/10) = { pos := (405, 305), dir := (1, 1), speed := 151 } := by
    norm_num [Ball.fly, samplePong, BALL_ACCEL]
  rw [h3]
  unfold Pong.update_ball_collisions
  rw [if_neg (by norm_num [samplePong]), if_neg (by norm_num [samplePong, BALL_SIZE, WINDOW_WIDTH]),
    if_neg (by norm_num [samplePong]), if_neg (by norm_num [samplePong, BALL_SIZE, WINDOW_HEIGHT])]
  rw [checkRacketHit_right_miss _ _ _ rfl
    (by norm_num [samplePong, Racket.new, Rect.intersect, Rect.right, Rect.bottom,
      min_def, max_def, DX, RACKET_SIZE, RACKET_MARGIN, WINDOW_WIDTH, WINDOW_HEIGHT,
      BALL_SIZE])]
  rw [checkRacketHit_skip_left _ _ _ rfl (by norm_num [samplePong])]

/-- C7 counterexample: from `Playing`, a tick that sends the ball past the
left edge and the top wall at once resolves as `Point(Right)` with the
ball's vertical position left at `-10`, outside the court's vertical bounds
in the snapshot exposed to the renderer. -/
theorem c7_counterexample :
    cornerPong.state = PongState.Playing ∧
    (cornerPong.update (1/10) 0 false false []).state = PongState.Point Side.Right ∧
    (cornerPong.update (1/10) 0 false false []).ball.pos.2 = -10 ∧
    ¬ 0 ≤ (cornerPong.update (1/10) 0 false false []).ball.pos.2 := by
  rw [cornerPong_tick]
  exact ⟨rfl, rfl, rfl, by norm_num⟩

/-- C7 amended: after a quiet tick from `Playing`, the ball's vertical
position lies within the court's vertical bounds unless that tick scored a
point (horizontal out-of-bounds preempts the vertical clamp, so a
corner exit can leave the vertical position unclamped). -/
theorem c7_vertical_bounds_unless_point (p : Pong) (ft now : ℚ) (r1 r2 : Bool)
    (inputs : List Input) (hs : p.state = PongState.Playing) (hq : Input.Quit ∉ inputs)
    (hnp : ∀ s, (p.update ft now r1 r2 inputs).state ≠ PongState.Point s) :
    0 ≤ (p.update ft now r1 r2 inputs).ball.pos.2 ∧
    (p.update ft now r1 r2 inputs).ball.pos.2 + BALL_SIZE ≤ WINDOW_HEIGHT := by
  rw [update_playing_eq p ft now r1 r2 inputs hq hs] at hnp ⊢
  exact update_ball_collisions_vbounds _ hnp

/-- Witness for the amended C7: a quiet mid-court tick stays in bounds. -/
theorem c7_witness :
    0 ≤ (samplePong.update (1/10) 0 false false []).ball.pos.2 ∧
    (samplePong.update (1/10) 0 false false []).ball.pos.2 + BALL_SIZE ≤ WINDOW_HEIGHT :=
  c7_vertical_bounds_unless_point samplePong (1/10) 0 false false [] rfl (by decide)
    (by rw [samplePong_tick]; intro s; cases s <;> simp [samplePong])

/-- C8: a tick in `Playing` with an empty intent set and zero elapsed time
changes neither the ball position, nor either racket position, nor the
scores (for any state whose rackets and ball respect the court bounds, as
every reachable `Playing` snapshot does). -/
theorem c8_zero_time_empty_input_noop (p : Pong) (now : ℚ) (r1 r2 : Bool)
    (hs : p.state = PongState.Playing)
    (hl1 : 0 ≤ p.rackets.1.pos.2) (hl2 : p.rackets.1.pos.2 ≤ WINDOW_HEIGHT - RACKET_SIZE.2)
    (hr1 : 0 ≤ p.rackets.2.pos.2) (hr2 : p.rackets.2.pos.2 ≤ WINDOW_HEIGHT - RACKET_SIZE.2)
    (hb1 : 0 ≤ p.ball.pos.2) (hb2 : p.ball.pos.2 + BALL_SIZE ≤ WINDOW_HEIGHT) :
    (p.update 0 now r1 r2 []).ball.pos = p.ball.pos ∧
    (p.update 0 now r1 r2 []).rackets.1.pos = p.rackets.1.pos ∧
    (p.update 0 now r1 r2 []).rackets.2.pos = p.rackets.2.pos ∧
    (p.update 0 now r1 r2 []).scores = p.scores := by
  rw [update_playing_eq p 0 now r1 r2 [] (by simp) hs]
  have h1 : p.apply_move_inputs 0 [] = p := by
    unfold Pong.apply_move_inputs
    simp
  rw [h1]
  have h2 : p.update_racket_collisions = p := by
    unfold Pong.update_racket_collisions
    rw [clampQ_eq_self hl1 hl2, clampQ_eq_self hr1 hr2]
  rw [h2]
  have h3 : p.ball.fly 0 = p.ball := by
    unfold Ball.fly
    simp
  rw [h3]
  exact ⟨Prod.ext (update_ball_collisions_pos_x p) (update_ball_collisions_pos_y p hb1 hb2),
    congrArg (fun r => r.1.pos) (update_ball_collisions_rackets p),
    congrArg (fun r => r.2.pos) (update_ball_collisions_rackets p),
    update_ball_collisions_scores p⟩

/-- Witness for C8: the zero-time empty-input tick fixes `samplePong`. -/
theorem c8_witness :
    (samplePong.update 0 0 false false []).ball.pos = samplePong.ball.pos ∧
    (samplePong.update 0 0 false false []).rackets.1.pos = samplePong.rackets.1.pos ∧
    (samplePong.update 0 0 false false []).rackets.2.pos = samplePong.rackets.2.pos ∧
    (samplePong.update 0 0 false false []).scores = samplePong.scores :=
  c8_zero_time_empty_input_noop samplePong 0 false false rfl
    (by norm_num [samplePong, Racket.new, WINDOW_HEIGHT, RACKET_SIZE, RACKET_MARGIN])
    (by norm_num [samplePong, Racket.new, WINDOW_HEIGHT, WINDOW_WIDTH, RACKET_SIZE, RACKET_MARGIN])
    (by norm_num [samplePong, Racket.new, WINDOW_HEIGHT, WINDOW_WIDTH, RACKET_SIZE, RACKET_MARGIN])
    (by norm_num [samplePong, Racket.new, WINDOW_HEIGHT, WINDOW_WIDTH, RACKET_SIZE, RACKET_MARGIN])
    (by norm_num [samplePong])
    (by norm_num [samplePong, BALL_SIZE, WINDOW_HEIGHT])

lemma apply_move_inputs_left_y (p : Pong) (ft : ℚ) (inputs : List Input) :
    (p.apply_move_inputs ft inputs).rackets.1.pos.2 =
      p.rackets.1.pos.2 +
        ((if Input.Up Side.Left ∈ inputs then -RACKET_SPEED * ft else 0) +
         (if Input.Down Side.Left ∈ inputs then RACKET_SPEED * ft else 0)) := by
  unfold Pong.apply_move_inputs
  by_cases h1 : Input.Up Side.Left ∈ inputs <;>
    by_cases h2 : Input.Down Side.Left ∈ inputs <;>
      by_cases h3 : Input.Up Side.Right ∈ inputs <;>
        by_cases h4 : Input.Down Side.Right ∈ inputs <;>
          simp [h1, h2, h3, h4, Racket.slide]

lemma apply_move_inputs_right_y (p : Pong) (ft : ℚ) (inputs : List Input) :
    (p.apply_move_inputs ft inputs).rackets.2.pos.2 =
      p.rackets.2.pos.2 +
        ((if Input.Up Side.Right ∈ inputs then -RACKET_SPEED * ft else 0) +
         (if Input.Down Side.Right ∈ inputs then RACKET_SPEED * ft else 0)) := by
  unfold Pong.apply_move_inputs
  by_cases h1 : Input.Up Side.Left ∈ inputs <;>
    by_cases h2 : Input.Down Side.Left ∈ inputs <;>
      by_cases h3 : Input.Up Side.Right ∈ inputs <;>
        by_cases h4 : Input.Down Side.Right ∈ inputs <;>
          simp [h1, h2, h3, h4, Racket.slide]

/-- C9 counterexample: with the duplicate intent list `[Up(Left), Up(Left)]`
and frame time `1/10`, the left racket moves from 250 to 200 — the single
displacement `-50` — whereas summing the displacement of every occurrence
would predict `250 + 2·(-500·(1/10)) = 150`. -/
theorem c9_counterexample :
    (samplePong.update (1/10) 0 false false
        [Input.Up Side.Left, Input.Up Side.Left]).rackets.1.pos.2 = 200 ∧
    samplePong.rackets.1.pos.2 + 2 * (-RACKET_SPEED * (1/10)) = 150 ∧
    (200 : ℚ) ≠ 150 := by
  refine ⟨?_, by norm_num [samplePong, Racket.new, RACKET_SPEED, WINDOW_HEIGHT,
    WINDOW_WIDTH, RACKET_SIZE, RACKET_MARGIN], by norm_num⟩
  rw [update_playing_eq _ _ _ _ _ _ (by decide) rfl]
  rw [update_ball_collisions_rackets]
  have hm1 : Input.Up Side.Left ∈ [Input.Up Side.Left, Input.Up Side.Left] := by decide
  have hm2 : Input.Down Side.Left ∉ [Input.Up Side.Left, Input.Up Side.Left] := by decide
  simp only [Pong.update_racket_collisions]
  rw [apply_move_inputs_left_y, if_pos hm1, if_neg hm2]
  norm_num [samplePong, Racket.new, clampQ, RACKET_SPEED, WINDOW_HEIGHT, WINDOW_WIDTH,
    RACKET_SIZE, RACKET_MARGIN]

/-- C9 amended: the tick tolerates an empty or conflicting intent set, but
intents have set semantics: each *distinct* move intent present is applied
exactly once (duplicates add nothing), so after a `Playing` tick each
racket's vertical position is its previous position plus one displacement
per distinct intent (conflicting `Up`/`Down` cancel), clamped to the court. -/
theorem c9_distinct_move_intents_applied_once (p : Pong) (ft now : ℚ) (r1 r2 : Bool)
    (inputs : List Input) (hs : p.state = PongState.Playing) (hq : Input.Quit ∉ inputs) :
    (p.update ft now r1 r2 inputs).rackets.1.pos.2 =
      clampQ (p.rackets.1.pos.2 +
          ((if Input.Up Side.Left ∈ inputs then -RACKET_SPEED * ft else 0) +
           (if Input.Down Side.Left ∈ inputs then RACKET_SPEED * ft else 0)))
        0 (WINDOW_HEIGHT - RACKET_SIZE.2) ∧
    (p.update ft now r1 r2 inputs).rackets.2.pos.2 =
      clampQ (p.rackets.2.pos.2 +
          ((if Input.Up Side.Right ∈ inputs then -RACKET_SPEED * ft else 0) +
           (if Input.Down Side.Right ∈ inputs then RACKET_SPEED * ft else 0)))
        0 (WINDOW_HEIGHT - RACKET_SIZE.2) := by
  rw [update_playing_eq p ft now r1 r2 inputs hq hs]
  constructor <;> rw [update_ball_collisions_rackets] <;>
    simp [Pong.update_racket_collisions, apply_move_inputs_left_y, apply_move_inputs_right_y]

/-- Witness for the amended C9: duplicate `Up(Left)` plus one `Down(Right)`
on `samplePong` — each distinct intent applied once, then clamped. -/
theorem c9_witness :
    (samplePong.update (1/10) 0 false false
        [Input.Up Side.Left, Input.Up Side.Left, Input.Down Side.Right]).rackets.1.pos.2 =
      clampQ (samplePong.rackets.1.pos.2 +
          ((if Input.Up Side.Left ∈
              [Input.Up Side.Left, Input.Up Side.Left, Input.Down Side.Right]
            then -RACKET_SPEED * (1/10) else 0) +
           (if Input.Down Side.Left ∈
              [Input.Up Side.Left, Input.Up Side.Left, Input.Down Side.Right]
            then RACKET_SPEED * (1/10) else 0)))
        0 (WINDOW_HEIGHT - RACKET_SIZE.2) ∧
    (samplePong.update (1/10) 0 false false
        [Input.Up Side.Left, Input.Up Side.Left, Input.Down Side.Right]).rackets.2.pos.2 =
      clampQ (samplePong.rackets.2.pos.2 +
          ((if Input.Up Side.Right ∈
              [Input.Up Side.Left, Input.Up Side.Left, Input.Down Side.Right]
            then -RACKET_SPEED * (1/10) else 0) +
           (if Input.Down Side.Right ∈
              [Input.Up Side.Left, Input.Up Side.Left, Input.Down Side.Right]
            then RACKET_SPEED * (1/10) else 0)))
        0 (WINDOW_HEIGHT - RACKET_SIZE.2) :=
  c9_distinct_move_intents_applied_once samplePong (1/10) 0 false false
    [Input.Up Side.Left, Input.Up Side.Left, Input.Down Side.Right] rfl (by decide)

lemma ball_new_dir_abs (side : Option Side) (r1 r2 : Bool) :
    |(Ball.new side r1 r2).dir.1| = 1 := by
  cases side with
  | none => cases r1 <;> norm_num [Ball.new, rnddir]
  | some s => cases s <;> norm_num [Ball.new, rnddir]

lemma checkRacketHit_dir_abs (br : Rect) (r : Racket) (p : Pong) :
    |(checkRacketHit br r p).ball.dir.1| = |p.ball.dir.1| := by
  unfold checkRacketHit applyRacketHit
  cases r.side <;> dsimp only <;> split
  · rfl
  · split
    · rfl
    · simp [abs_abs]
  · rfl
  · split
    · rfl
    · simp [abs_abs]

lemma update_ball_collisions_dir_abs (q : Pong) :
    |(q.update_ball_collisions).ball.dir.1| = |q.ball.dir.1| := by
  unfold Pong.update_ball_collisions
  split_ifs <;> simp [checkRacketHit_dir_abs]

/-- C10: the ball's horizontal direction always has absolute value 1:
`Ball::new` spawns with `±1`, one full tick preserves the invariant (flying
keeps the direction, wall bounces keep its horizontal part, paddle rebounds
replace it by `±` its absolute value), and consequently one integration step
displaces the ball horizontally by exactly `|speed * elapsed|`. -/
theorem c10_horizontal_direction_unit (side : Option Side) (rb1 rb2 : Bool) (b : Ball)
    (p : Pong) (ft now : ℚ) (r1 r2 : Bool) (inputs : List Input) :
    |(Ball.new side rb1 rb2).dir.1| = 1 ∧
    (|p.ball.dir.1| = 1 → |(p.update ft now r1 r2 inputs).ball.dir.1| = 1) ∧
    (|b.dir.1| = 1 → |(b.fly ft).pos.1 - b.pos.1| = |b.speed * ft|) := by
  refine ⟨ball_new_dir_abs side rb1 rb2, ?_, ?_⟩
  · intro h
    unfold Pong.update
    by_cases hq : Input.Quit ∈ inputs
    · simp [hq, h]
    · simp only [hq, if_neg, ite_false]
      cases hs : p.state with
      | NewRound s => simp [ball_new_dir_abs]
      | Playing =>
          rw [update_ball_collisions_dir_abs]
          simp [Ball.fly, Pong.update_racket_collisions, apply_move_inputs_ball, h]
      | WallBounce => exact h
      | RacketBounce => exact h
      | Point s => cases s <;> simp [Pong.update_score, h]
      | Winner s t =>
          by_cases hw : now - t > WIN_SCREEN_SECS ∧ inputs ≠ []
          · simp [hw, Pong.reset, ball_new_dir_abs]
          · simp [hw, h]
      | Exit => exact h
  · intro h
    unfold Ball.fly
    dsimp only
    rw [show b.pos.1 + b.dir.1 * (b.speed * ft) - b.pos.1 = b.dir.1 * (b.speed * ft) by ring]
    rw [abs_mul, h, one_mul]

/-- Witness for C10: the invariant and the displacement law at `samplePong`
with frame time `1/10`. -/
theorem c10_witness :
    |(samplePong.update (1/10) 0 false false []).ball.dir.1| = 1 ∧
    |(samplePong.ball.fly (1/10)).pos.1 - samplePong.ball.pos.1|
      = |samplePong.ball.speed * (1/10)| :=
  ⟨(c10_horizontal_direction_unit none false false samplePong.ball samplePong
      (1/10) 0 false false []).2.1 (by norm_num [samplePong]),
   (c10_horizontal_direction_unit none false false samplePong.ball samplePong
      (1/10) 0 false false []).2.2 (by norm_num [samplePong])⟩

lemma intersect_eq_some (a b : Rect) (h1 : max a.x b.x ≤ min a.right b.right)
    (h2 : max a.y b.y ≤ min a.bottom b.bottom) :
    a.intersect b = some (Rect.mk (max a.x b.x) (max a.y b.y)
      (min a.right b.right - max a.x b.x) (min a.bottom b.bottom - max a.y b.y)) := by
  unfold Rect.intersect
  rw [if_neg]
  push_neg
  exact ⟨h1, h2⟩

lemma applyRacketHit_dir_y (br rr : Rect) (r : Racket) (p : Pong) (rect : Rect)
    (h : rr.intersect br = some rect) :
    (applyRacketHit br rr r p).ball.dir.2 = (rect.center.2 - rr.center.2) / (rr.h * (1/2)) := by
  unfold applyRacketHit
  rw [h]

/-- C3: in the paddle-rebound resolution step, for either paddle, a ball
moving toward the paddle whose horizontal extent overlaps the contact slab
leaves with vertical direction 0 when its contact center is at the paddle's
vertical center, `-1` when it touches the paddle's very top edge, and `1`
when it touches the paddle's very bottom edge. -/
theorem c3_paddle_rebound_angle (p : Pong) (rx ry : ℚ) :
    (p.ball.dir.1 ≤ 0 →
     rx + RACKET_SIZE.1 - DX ≤ p.ball.pos.1 + BALL_SIZE →
     p.ball.pos.1 ≤ rx + RACKET_SIZE.1 + DX →
      ((p.ball.pos.2 + BALL_SIZE * (1/2) = ry + RACKET_SIZE.2 * (1/2) →
        (checkRacketHit (Rect.mk p.ball.pos.1 p.ball.pos.2 BALL_SIZE BALL_SIZE)
          (Racket.mk Side.Left (rx, ry)) p).ball.dir.2 = 0) ∧
       (p.ball.pos.2 + BALL_SIZE = ry →
        (checkRacketHit (Rect.mk p.ball.pos.1 p.ball.pos.2 BALL_SIZE BALL_SIZE)
          (Racket.mk Side.Left (rx, ry)) p).ball.dir.2 = -1) ∧
       (p.ball.pos.2 = ry + RACKET_SIZE.2 →
        (checkRacketHit (Rect.mk p.ball.pos.1 p.ball.pos.2 BALL_SIZE BALL_SIZE)
          (Racket.mk Side.Left (rx, ry)) p).ball.dir.2 = 1))) ∧
    (0 ≤ p.ball.dir.1 →
     rx - DX ≤ p.ball.pos.1 + BALL_SIZE →
     p.ball.pos.1 ≤ rx + DX →
      ((p.ball.pos.2 + BALL_SIZE * (1/2) = ry + RACKET_SIZE.2 * (1/2) →
        (checkRacketHit (Rect.mk p.ball.pos.1 p.ball.pos.2 BALL_SIZE BALL_SIZE)
          (Racket.mk Side.Right (rx, ry)) p).ball.dir.2 = 0) ∧
       (p.ball.pos.2 + BALL_SIZE = ry →
        (checkRacketHit (Rect.mk p.ball.pos.1 p.ball.pos.2 BALL_SIZE BALL_SIZE)
          (Racket.mk Side.Right (rx, ry)) p).ball.dir.2 = -1) ∧
       (p.ball.pos.2 = ry + RACKET_SIZE.2 →
        (checkRacketHit (Rect.mk p.ball.pos.1 p.ball.pos.2 BALL_SIZE BALL_SIZE)
          (Racket.mk Side.Right (rx, ry)) p).ball.dir.2 = 1))) := by
  constructor
  · intro hdir hx1 hx2
    norm_num [DX, BALL_SIZE, RACKET_SIZE] at hx1 hx2
    refine ⟨fun hy => ?_, fun hy => ?_, fun hy => ?_⟩
    · have hy' : p.ball.pos.2 = ry + 40 := by
        norm_num [BALL_SIZE, RACKET_SIZE] at hy
        linarith
      unfold checkRacketHit
      dsimp only
      rw [if_neg (not_lt.mpr hdir)]
      rw [applyRacketHit_dir_y _ _ _ _ _ (intersect_eq_some _ _
        (by dsimp only [Rect.right]
            refine max_le (le_min ?_ ?_) (le_min ?_ ?_) <;>
              norm_num [DX, BALL_SIZE, RACKET_SIZE] <;> linarith)
        (by dsimp only [Rect.bottom]
            refine max_le (le_min ?_ ?_) (le_min ?_ ?_) <;>
              norm_num [DX, BALL_SIZE, RACKET_SIZE] <;> linarith))]
      dsimp only [Rect.center, Rect.bottom]
      rw [max_eq_right (by linarith : ry ≤ p.ball.pos.2),
        min_eq_right (by norm_num [RACKET_SIZE, BALL_SIZE]; linarith :
          p.ball.pos.2 + BALL_SIZE ≤ ry + RACKET_SIZE.2)]
      rw [hy']
      norm_num [RACKET_SIZE, BALL_SIZE]
      linarith
    · have hy' : p.ball.pos.2 = ry - 20 := by
        norm_num [BALL_SIZE] at hy
        linarith
      unfold checkRacketHit
      dsimp only
      rw [if_neg (not_lt.mpr hdir)]
      rw [applyRacketHit_dir_y _ _ _ _ _ (intersect_eq_some _ _
        (by dsimp only [Rect.right]
            refine max_le (le_min ?_ ?_) (le_min ?_ ?_) <;>
              norm_num [DX, BALL_SIZE, RACKET_SIZE] <;> linarith)
        (by dsimp only [Rect.bottom]
            refine max_le (le_min ?_ ?_) (le_min ?_ ?_) <;>
              norm_num [DX, BALL_SIZE, RACKET_SIZE] <;> linarith))]
      dsimp only [Rect.center, Rect.bottom]
      rw [max_eq_left (by linarith : p.ball.pos.2 ≤ ry),
        min_eq_right (by norm_num [RACKET_SIZE, BALL_SIZE]; linarith :
          p.ball.pos.2 + BALL_SIZE ≤ ry + RACKET_SIZE.2)]
      rw [hy']
      norm_num [RACKET_SIZE, BALL_SIZE]
    · have hy' : p.ball.pos.2 = ry + 100 := by
        norm_num [RACKET_SIZE] at hy
        linarith
      unfold checkRacketHit
      dsimp only
      rw [if_neg (not_lt.mpr hdir)]
      rw [applyRacketHit_dir_y _ _ _ _ _ (intersect_eq_some _ _
        (by dsimp only [Rect.right]
            refine max_le (le_min ?_ ?_) (le_min ?_ ?_) <;>
              norm_num [DX, BALL_SIZE, RACKET_SIZE] <;> linarith)
        (by dsimp only [Rect.bottom]
            refine max_le (le_min ?_ ?_) (le_min ?_ ?_) <;>
              norm_num [DX, BALL_SIZE, RACKET_SIZE] <;> linarith))]
      dsimp only [Rect.center, Rect.bottom]
      rw [max_eq_right (by linarith : ry ≤ p.ball.pos.2),
        min_eq_left (by norm_num [RACKET_SIZE, BALL_SIZE]; linarith :
          ry + RACKET_SIZE.2 ≤ p.ball.pos.2 + BALL_SIZE)]
      rw [hy']
      norm_num [RACKET_SIZE, BALL_SIZE]
  · intro hdir hx1 hx2
    norm_num [DX, BALL_SIZE, RACKET_SIZE] at hx1 hx2
    refine ⟨fun hy => ?_, fun hy => ?_, fun hy => ?_⟩
    · have hy' : p.ball.pos.2 = ry + 40 := by
        norm_num [BALL_SIZE, RACKET_SIZE] at hy
        linarith
      unfold checkRacketHit
      dsimp only
      rw [if_neg (not_lt.mpr hdir)]
      rw [applyRacketHit_dir_y _ _ _ _ _ (intersect_eq_some _ _
        (by dsimp only [Rect.right]
            refine max_le (le_min ?_ ?_) (le_min ?_ ?_) <;>
              norm_num [DX, BALL_SIZE, RACKET_SIZE] <;> linarith)
        (by dsimp only [Rect.bottom]
            refine max_le (le_min ?_ ?_) (le_min ?_ ?_) <;>
              norm_num [DX, BALL_SIZE, RACKET_SIZE] <;> linarith))]
      dsimp only [Rect.center, Rect.bottom]
      rw [max_eq_right (by linarith : ry ≤ p.ball.pos.2),
        min_eq_right (by norm_num [RACKET_SIZE, BALL_SIZE]; linarith :
          p.ball.pos.2 + BALL_SIZE ≤ ry + RACKET_SIZE.2)]
      rw [hy']
      norm_num [RACKET_SIZE, BALL_SIZE]
      linarith
    · have hy' : p.ball.pos.2 = ry - 20 := by
        norm_num [BALL_SIZE] at hy
        linarith
      unfold checkRacketHit
      dsimp only
      rw [if_neg (not_lt.mpr hdir)]
      rw [applyRacketHit_dir_y _ _ _ _ _ (intersect_eq_some _ _
        (by dsimp only [Rect.right]
            refine max_le (le_min ?_ ?_) (le_min ?_ ?_) <;>
              norm_num [DX, BALL_SIZE, RACKET_SIZE] <;> linarith)
        (by dsimp only [Rect.bottom]
            refine max_le (le_min ?_ ?_) (le_min ?_ ?_) <;>
              norm_num [DX, BALL_SIZE, RACKET_SIZE] <;> linarith))]
      dsimp only [Rect.center, Rect.bottom]
      rw [max_eq_left (by linarith : p.ball.pos.2 ≤ ry),
        min_eq_right (by norm_num [RACKET_SIZE, BALL_SIZE]; linarith :
          p.ball.pos.2 + BALL_SIZE ≤ ry + RACKET_SIZE.2)]
      rw [hy']
      norm_num [RACKET_SIZE, BALL_SIZE]
    · have hy' : p.ball.pos.2 = ry + 100 := by
        norm_num [RACKET_SIZE] at hy
        linarith
      unfold checkRacketHit
      dsimp only
      rw [if_neg (not_lt.mpr hdir)]
      rw [applyRacketHit_dir_y _ _ _ _ _ (intersect_eq_some _ _
        (by dsimp only [Rect.right]
            refine max_le (le_min ?_ ?_) (le_min ?_ ?_) <;>
              norm_num [DX, BALL_SIZE, RACKET_SIZE] <;> linarith)
        (by dsimp only [Rect.bottom]
            refine max_le (le_min ?_ ?_) (le_min ?_ ?_) <;>
              norm_num [DX, BALL_SIZE, RACKET_SIZE] <;> linarith))]
      dsimp only [Rect.center, Rect.bottom]
      rw [max_eq_right (by linarith : ry ≤ p.ball.pos.2),
        min_eq_left (by norm_num [RACKET_SIZE, BALL_SIZE]; linarith :
          ry + RACKET_SIZE.2 ≤ p.ball.pos.2 + BALL_SIZE)]
      rw [hy']
      norm_num [RACKET_SIZE, BALL_SIZE]

/-- `samplePong` with the ball tangent to the left racket's very top edge. -/
def topSlabPong : Pong :=
  { samplePong with ball := { pos := (50, 230), dir := (-1, 1), speed := 150 } }

/-- `samplePong` with the ball tangent to the left racket's very bottom edge. -/
def botSlabPong : Pong :=
  { samplePong with ball := { pos := (50, 350), dir := (-1, 1), speed := 150 } }

/-- Witness for C3 on the left paddle at (40, 250): a center strike rebounds
with vertical direction 0, a top-edge strike with -1, a bottom-edge strike
with 1. -/
theorem c3_witness :
    (checkRacketHit (Rect.mk slabPong.ball.pos.1 slabPong.ball.pos.2 BALL_SIZE BALL_SIZE)
      (Racket.mk Side.Left (40, 250)) slabPong).ball.dir.2 = 0 ∧
    (checkRacketHit (Rect.mk topSlabPong.ball.pos.1 topSlabPong.ball.pos.2 BALL_SIZE BALL_SIZE)
      (Racket.mk Side.Left (40, 250)) topSlabPong).ball.dir.2 = -1 ∧
    (checkRacketHit (Rect.mk botSlabPong.ball.pos.1 botSlabPong.ball.pos.2 BALL_SIZE BALL_SIZE)
      (Racket.mk Side.Left (40, 250)) botSlabPong).ball.dir.2 = 1 :=
  ⟨((c3_paddle_rebound_angle slabPong 40 250).1
      (by norm_num [slabPong, samplePong])
      (by norm_num [slabPong, samplePong, RACKET_SIZE, DX, BALL_SIZE])
      (by norm_num [slabPong, samplePong, RACKET_SIZE, DX])).1
      (by norm_num [slabPong, samplePong, BALL_SIZE, RACKET_SIZE]),
   ((c3_paddle_rebound_angle topSlabPong 40 250).1
      (by norm_num [topSlabPong, samplePong])
      (by norm_num [topSlabPong, samplePong, RACKET_SIZE, DX, BALL_SIZE])
      (by norm_num [topSlabPong, samplePong, RACKET_SIZE, DX])).2.1
      (by norm_num [topSlabPong, samplePong, BALL_SIZE]),
   ((c3_paddle_rebound_angle botSlabPong 40 250).1
      (by norm_num [botSlabPong, samplePong])
      (by norm_num [botSlabPong, samplePong, RACKET_SIZE, DX, BALL_SIZE])
      (by norm_num [botSlabPong, samplePong, RACKET_SIZE, DX])).2.2
      (by norm_num [botSlabPong, samplePong, RACKET_SIZE])⟩
